import Mathlib

/-!
Verification development for the pilot-portal fleet-operations dashboard.

The aggregation code of the repository is shallowly embedded here:
* JavaScript numbers are modelled as rationals (`ℚ`); all arithmetic in the
  embedded code is sums, differences, products and guarded divisions, so no
  rounding behaviour of binary doubles is relied upon by any statement.
* A numeric field that the backend may leave absent (`null`) is modelled as
  `Option ℚ` with `none` for the absent value; string fields likewise.
* JavaScript objects used as grouping dictionaries preserve the insertion
  order of their (non-numeric) string keys, so they are modelled as
  association lists to which new keys are appended at the end.
* `Array.prototype.sort` is stable and its comparators below induce total
  preorders, so the (unique) result is modelled with the stable
  `List.insertionSort`.
-/

namespace PilotPortal

/-- Calendar date at month granularity: the aggregation code only ever uses
`getFullYear()` and `getMonth()` of a flight date (filtering and monthly
bucketing), never the day or time. -/
structure FDate where
  year : ℤ
  month : ℕ
deriving DecidableEq

/-- Domain shape of a flight row (`@/types` `Flight`), camelCase fields.
Numeric columns may be `null` on the wire, hence `Option ℚ`. -/
structure Flight where
  id : String := ""
  aircraftId : Option String := none
  pilotId : Option String := none
  pilotName : Option String := none
  date : FDate := ⟨0, 1⟩
  departureTime : Option String := none
  tachStart : Option ℚ := none
  tachEnd : Option ℚ := none
  hobbsTime : Option ℚ := none
  fuelAdded : Option ℚ := none
  oilAdded : Option ℚ := none
  passengerCount : Option ℚ := none
  route : Option String := none
  category : Option String := none
  squawks : Option String := none
  notes : Option String := none
deriving DecidableEq

/-- Aircraft row, restricted to the fields the aggregation code reads. -/
structure Aircraft where
  id : String := ""
  tailNumber : Option String := none
  make : Option String := none
  model : Option String := none
deriving DecidableEq

/-- `RouteTargetTime` row as mapped in `RouteAnalyticsContent.fetchTargetTimes`:
the scoping narrowers are `x || null`, so they are `none` when unset. -/
structure RouteTargetTime where
  id : String := ""
  route : String := ""
  targetTime : ℚ := 0
  aircraftId : Option String := none
  pilotId : Option String := none
  month : Option ℕ := none
  year : Option ℤ := none
deriving DecidableEq

/-- JavaScript `v || d` on a possibly-absent string: `undefined`, `null` and
the empty string are falsy and fall back to `d`. -/
def jsOrStr (v : Option String) (d : String) : String :=
  match v with
  | none => d
  | some s => if s = "" then d else s

/-- JavaScript truthiness of a possibly-absent string
(`if (!flight.aircraftId) ...`). -/
def jsTruthy (v : Option String) : Bool :=
  match v with
  | none => false
  | some s => s ≠ ""

/-- The inline `parseFloat(x as any) || 0` idiom of `FlightSummaryOverview`:
an absent value parses to `NaN` and falls back to `0`; a number is returned
unchanged (`0 || 0` is `0`). -/
def parseNum (v : Option ℚ) : ℚ := v.getD 0

/-- The `typeof x === 'number' ? x : 0` idiom of `FuelAnalysisContent`. -/
def numOr0 (v : Option ℚ) : ℚ := v.getD 0

/-- Modelled from the spec: `ensureNumber` of `@/utils/numberUtils`, whose
source file is not in the repository snapshot. Spec 4.1 (Numeric
Normalizer): returns the numeric value, or `0` if the value is absent,
non-numeric, or `NaN`. -/
def ensureNumber (v : Option ℚ) : ℚ := v.getD 0

/-- `parseFloat(x.toFixed(1))`: round to one decimal place. (`toFixed` tie
behaviour on binary doubles is not modelled; no claim depends on a tie.) -/
def round1 (q : ℚ) : ℚ := (round (q * 10) : ℤ) / 10

/-- `parseFloat(x.toFixed(2))`: round to two decimal places. -/
def round2 (q : ℚ) : ℚ := (round (q * 100) : ℤ) / 100

/-- JavaScript-object grouping step: update the entry for key `k` with `upd`,
creating it from `dflt` first when the key is new (new keys are appended at
the end, matching object key insertion order). -/
def updateAssoc {β : Type} (k : String) (dflt : β) (upd : β → β) :
    List (String × β) → List (String × β)
  | [] => [(k, upd dflt)]
  | (k', v) :: rest =>
      if k' = k then (k', upd v) :: rest else (k', v) :: updateAssoc k dflt upd rest

/-- `Array.prototype.sort(c)` for a consistent comparator `c`: the stable sort
that keeps `a` before `b` whenever `c a b ≤ 0`. -/
def jsSortBy {α : Type} (c : α → α → ℚ) (l : List α) : List α :=
  l.insertionSort (fun a b => c a b ≤ 0)

/-! ## FlightSummaryOverview -/

/-- `const tachDiff = tachEnd > tachStart ? tachEnd - tachStart : 0` applied
to the `parseFloat(... ) || 0` coerced readings. -/
def tachDiffOf (f : Flight) : ℚ :=
  let tachStart := parseNum f.tachStart
  let tachEnd := parseNum f.tachEnd
  if tachStart < tachEnd then tachEnd - tachStart else 0

/-- Per-flight duration used by every aggregation in
`FlightSummaryOverview`: `hobbsTime || tachDiff`. -/
def hoursSummary (f : Flight) : ℚ :=
  let hobbsTime := parseNum f.hobbsTime
  if hobbsTime ≠ 0 then hobbsTime else tachDiffOf f

/-- One step of `flightsByAircraft`: a flight without a truthy `aircraftId`
is skipped (`if (!flight.aircraftId) return`), the rest are pushed onto
their aircraft's list. -/
def flightsByAircraftStep (acc : List (String × List Flight)) (f : Flight) :
    List (String × List Flight) :=
  match f.aircraftId with
  | none => acc
  | some k => if k = "" then acc else updateAssoc k [] (fun l => l ++ [f]) acc

/-- `flightsByAircraft` of `FlightSummaryOverview`. -/
def flightsByAircraft (fs : List Flight) : List (String × List Flight) :=
  fs.foldl flightsByAircraftStep []

/-- One row of the Aircraft Summary table. -/
structure AircraftStat where
  id : String
  tailNumber : String
  make : String
  model : String
  flightCount : ℕ
  totalHours : ℚ
  totalTach : ℚ
  averageFlightTime : ℚ
  averageTachTime : ℚ
deriving DecidableEq

/-- `aircraftStats`: per-aircraft totals over the grouped flights, with the
display-name lookup and one-decimal rounding of the source. -/
def aircraftStats (groups : List (String × List Flight)) (acs : List Aircraft) :
    List AircraftStat :=
  groups.map (fun p =>
    let aircraftId := p.1
    let aircraftFlights := p.2
    let foundAircraft := acs.find? (fun a => a.id = aircraftId)
    let sums := aircraftFlights.foldl
      (fun (s : ℚ × ℚ) f => (s.1 + hoursSummary f, s.2 + tachDiffOf f)) (0, 0)
    let totalHours := sums.1
    let totalTach := sums.2
    let flightCount : ℕ := aircraftFlights.length
    let averageFlightTime := if 0 < flightCount then totalHours / (flightCount : ℚ) else 0
    let averageTachTime := if 0 < flightCount then totalTach / (flightCount : ℚ) else 0
    { id := aircraftId
      tailNumber := jsOrStr (foundAircraft.bind (·.tailNumber)) "Unknown"
      make := jsOrStr (foundAircraft.bind (·.make)) "Unknown"
      model := jsOrStr (foundAircraft.bind (·.model)) "Unknown"
      flightCount := flightCount
      totalHours := round1 totalHours
      totalTach := round1 totalTach
      averageFlightTime := round1 averageFlightTime
      averageTachTime := round1 averageTachTime })

/-- One row of the pilot statistics table. -/
structure PilotStat where
  name : String
  flights : ℕ
  hours : ℚ
  averageTime : ℚ
deriving DecidableEq

/-- The `byPilot` accumulator of `pilotStats`: key `flight.pilotName ||
'Unknown'`, payload `{count, hours}`. -/
def byPilotStep (acc : List (String × (ℕ × ℚ))) (f : Flight) :
    List (String × (ℕ × ℚ)) :=
  updateAssoc (jsOrStr f.pilotName "Unknown") (0, 0)
    (fun cv => (cv.1 + 1, cv.2 + hoursSummary f)) acc

/-- The `byPilot` grouping dictionary. -/
def byPilot (fs : List Flight) : List (String × (ℕ × ℚ)) :=
  fs.foldl byPilotStep []

/-- `pilotStats`: per-pilot rows, sorted descending by flight count
(`(a, b) => b.flights - a.flights`). -/
def pilotStats (fs : List Flight) : List PilotStat :=
  jsSortBy (fun a b => (b.flights : ℚ) - a.flights)
    ((byPilot fs).map (fun p =>
      let averageTime := if 0 < p.2.1 then p.2.2 / (p.2.1 : ℚ) else 0
      { name := p.1
        flights := p.2.1
        hours := round1 p.2.2
        averageTime := round1 averageTime }))

/-- One row of the route statistics table in `FlightSummaryOverview`. -/
structure RouteSummaryStat where
  name : String
  flights : ℕ
  hours : ℚ
  tach : ℚ
  averageTime : ℚ
  averageTach : ℚ
deriving DecidableEq

/-- The `byRoute` accumulator of `routeStats`: key `flight.route || 'Local'`,
payload `{count, hours, tach}`. -/
def byRouteSummaryStep (acc : List (String × (ℕ × ℚ × ℚ))) (f : Flight) :
    List (String × (ℕ × ℚ × ℚ)) :=
  updateAssoc (jsOrStr f.route "Local") (0, 0, 0)
    (fun cv => (cv.1 + 1, cv.2.1 + hoursSummary f, cv.2.2 + tachDiffOf f)) acc

/-- The `byRoute` grouping dictionary of `FlightSummaryOverview`. -/
def byRouteSummary (fs : List Flight) : List (String × (ℕ × ℚ × ℚ)) :=
  fs.foldl byRouteSummaryStep []

/-- `routeStats` of `FlightSummaryOverview`, sorted descending by flight
count. -/
def routeStatsSummary (fs : List Flight) : List RouteSummaryStat :=
  jsSortBy (fun a b => (b.flights : ℚ) - a.flights)
    ((byRouteSummary fs).map (fun p =>
      let averageTime := if 0 < p.2.1 then p.2.2.1 / (p.2.1 : ℚ) else 0
      let averageTach := if 0 < p.2.1 then p.2.2.2 / (p.2.1 : ℚ) else 0
      { name := p.1
        flights := p.2.1
        hours := round1 p.2.2.1
        tach := round1 p.2.2.2
        averageTime := round1 averageTime
        averageTach := round1 averageTach }))

/-! ## FuelAnalysisContent -/

/-- Per-flight duration in `FuelAnalysisContent.fuelAnalysisByAircraft` and
`overallStats`: `hobbsTime || (tachEnd - tachStart)` — note the tach
difference is NOT clamped at zero here, unlike `FlightSummaryOverview`. -/
def hoursFlownFuel (f : Flight) : ℚ :=
  let hobbsTime := numOr0 f.hobbsTime
  if hobbsTime ≠ 0 then hobbsTime else numOr0 f.tachEnd - numOr0 f.tachStart

/-- One row of the fuel-analysis table. -/
structure FuelStat where
  aircraftId : String
  tailNumber : String
  totalHours : ℚ
  totalFuel : ℚ
  fuelPerHour : ℚ
deriving DecidableEq

/-- `fuelAnalysisByAircraft`: group by `flight.aircraftId` (a missing id is
coerced to the object key "undefined", the source does not skip such
flights), total hours and fuel, derive gallons per hour, keep only aircraft
with positive totals, sort descending by total hours. -/
def fuelAnalysisByAircraft (fs : List Flight) (acs : List Aircraft) :
    List FuelStat :=
  let byAircraft := fs.foldl
    (fun acc f =>
      let key := f.aircraftId.getD "undefined"
      let foundAircraft := acs.find? (fun a => a.id = key)
      updateAssoc key
        ((jsOrStr (foundAircraft.bind (·.tailNumber)) "Unknown", 0, 0) : String × ℚ × ℚ)
        (fun st => (st.1, st.2.1 + hoursFlownFuel f, st.2.2 + numOr0 f.fuelAdded))
        acc)
    []
  jsSortBy (fun a b => b.totalHours - a.totalHours)
    ((byAircraft.map (fun p =>
      let totalHours := p.2.2.1
      let totalFuel := p.2.2.2
      { aircraftId := p.1
        tailNumber := p.2.1
        totalHours := totalHours
        totalFuel := totalFuel
        fuelPerHour := if 0 < totalHours then round2 (totalFuel / totalHours) else 0
        : FuelStat })).filter
      (fun st => 0 < st.totalHours && 0 < st.totalFuel))

/-- `overallStats` of `FuelAnalysisContent`: fleet-wide
`(totalHours, totalFuel, averageGPH)`. -/
def overallFuelStats (fs : List Flight) : ℚ × ℚ × ℚ :=
  let totals := fs.foldl
    (fun (s : ℚ × ℚ) f => (s.1 + hoursFlownFuel f, s.2 + numOr0 f.fuelAdded)) (0, 0)
  let averageGPH := if 0 < totals.1 then round2 (totals.2 / totals.1) else 0
  (totals.1, totals.2, averageGPH)

/-! ## PassengerSummaryContent -/

/-- `relevantFlights`: keep only category "SF" or "135" flights. -/
def relevantFlights (fs : List Flight) : List Flight :=
  fs.filter (fun f => f.category == some "SF" || f.category == some "135")

/-- Month index on the integers: `monthIdx ⟨y, m⟩ = 12 y + (m - 1)`, so
consecutive calendar months have consecutive indices. -/
def monthIdx (d : FDate) : ℤ := 12 * d.year + ((d.month : ℤ) - 1)

/-- Inverse of `monthIdx` on normalized dates (month in 1..12). -/
def idxToFDate (i : ℤ) : FDate := ⟨i / 12, (i % 12 + 1).toNat⟩

/-- One point of the Monthly Passenger Trends chart; `name` keeps the month
itself (the source formats it as a label string). -/
structure MonthBucket where
  name : FDate
  passengers : ℚ
  flights : ℕ
  average : ℚ
deriving DecidableEq

/-- `monthlyPassengers`: `eachMonthOfInterval` from `subMonths(now, 11)` to
`now` gives the 12 trailing calendar months; each bucket counts the relevant
flights whose date falls inside that month (`startOfMonth ≤ date ≤
endOfMonth`, i.e. same calendar month). -/
def monthBucketOf (relevant : List Flight) (m : FDate) : MonthBucket :=
  let monthFlights := relevant.filter (fun f => f.date == m)
  let passengers := monthFlights.foldl (fun s f => s + f.passengerCount.getD 0) 0
  let flightCount : ℕ := monthFlights.length
  { name := m
    passengers := passengers
    flights := flightCount
    average := if 0 < flightCount then round1 (passengers / (flightCount : ℚ)) else 0 }

/-- The `monthlyData` array: one bucket per month of the window. -/
def monthlyPassengers (now : FDate) (relevant : List Flight) : List MonthBucket :=
  ((List.range 12).map (fun i : ℕ => idxToFDate (monthIdx now - 11 + (i : ℤ)))).map
    (monthBucketOf relevant)

/-- One row of the passengers-by-route table. -/
structure PassengerRouteStat where
  name : String
  passengers : ℚ
  flights : ℕ
  average : ℚ
deriving DecidableEq

/-- `passengersByRoute` (over the already category-filtered flights): key
`flight.route || 'Local'`, payload `{count, flights}`; sorted descending by
passenger count. The `x.toFixed(1) || 0` guard of the source corresponds to
the zero value ℚ assigns to the (unreachable) division by zero. -/
def passengersByRoute (relevant : List Flight) : List PassengerRouteStat :=
  let byRoute := relevant.foldl
    (fun acc f =>
      updateAssoc (jsOrStr f.route "Local") ((0, 0) : ℚ × ℕ)
        (fun cv => (cv.1 + f.passengerCount.getD 0, cv.2 + 1)) acc)
    []
  jsSortBy (fun a b => b.passengers - a.passengers)
    (byRoute.map (fun p =>
      { name := p.1
        passengers := p.2.1
        flights := p.2.2
        average := round1 (p.2.1 / (p.2.2 : ℚ)) }))

/-! ## RouteAnalyticsContent -/

/-- Filter selections of the analytics view; `none` stands for the
`all-months` / `all-years` / `all-aircraft` / `all-pilots` sentinel. -/
structure Filters where
  month : Option ℕ := none
  year : Option ℤ := none
  aircraft : Option String := none
  pilot : Option String := none
deriving DecidableEq

/-- The flight filter of `chartData`: every dimension matches or its filter
is the wildcard sentinel. -/
def filterFlights (sel : Filters) (fs : List Flight) : List Flight :=
  fs.filter (fun f =>
    (match sel.month with | none => true | some m => f.date.month == m) &&
    (match sel.year with | none => true | some y => f.date.year == y) &&
    (match sel.aircraft with | none => true | some a => f.aircraftId == some a) &&
    (match sel.pilot with | none => true | some p => f.pilotId == some p))

/-- `flightsByRoute` of `RouteAnalyticsContent`: key `flight.route ||
'Unknown'` (note the fallback differs from the "Local" fallback used by the
other route groupings). -/
def flightsByRoute (fs : List Flight) : List (String × List Flight) :=
  fs.foldl
    (fun acc f => updateAssoc (jsOrStr f.route "Unknown") [] (fun l => l ++ [f]) acc)
    []

/-- Target applicability: same route, and each narrower is unset (`!t.x`),
equal to the current selection, or the selection is the wildcard. -/
def targetMatches (sel : Filters) (route : String) (t : RouteTargetTime) : Bool :=
  t.route == route &&
  (match sel.aircraft with
   | none => true
   | some a => t.aircraftId == some a || t.aircraftId == none) &&
  (match sel.pilot with
   | none => true
   | some p => t.pilotId == some p || t.pilotId == none) &&
  (match sel.month with
   | none => true
   | some m => t.month == some m || t.month == none) &&
  (match sel.year with
   | none => true
   | some y => t.year == some y || t.year == none)

/-- One row of the route analytics table/chart. -/
structure RouteRow where
  route : String
  flightCount : ℕ
  averageTime : ℚ
  targetTime : Option ℚ
  difference : Option ℚ
  percentDiff : Option ℚ
deriving DecidableEq

/-- Body of the `routeStats` map in `chartData`: totals use the raw
`f.hobbsTime` (JS `+` coerces a `null` column to 0); the matched target time
goes through `?.targetTime || null`, so a missing match and a zero target
both yield `null`, and the variance fields are computed only from a non-null
target. -/
def mkRouteRow (ts : List RouteTargetTime) (sel : Filters)
    (p : String × List Flight) : RouteRow :=
  let route := p.1
  let routeFlights := p.2
  let flightCount : ℕ := routeFlights.length
  let totalTime := routeFlights.foldl (fun s f => s + f.hobbsTime.getD 0) 0
  let averageTime := if 0 < flightCount then totalTime / (flightCount : ℚ) else 0
  let targetTime : Option ℚ :=
    match (ts.find? (targetMatches sel route)).map (·.targetTime) with
    | none => none
    | some q => if q = 0 then none else some q
  { route := route
    flightCount := flightCount
    averageTime := averageTime
    targetTime := targetTime
    difference := targetTime.map (fun tt => averageTime - tt)
    percentDiff := targetTime.map (fun tt => (averageTime / tt - 1) * 100) }

/-- The field a route row is sorted by. -/
inductive SortField
  | route | flightCount | averageTime | targetTime | difference | percentDiff
deriving DecidableEq

/-- Sort direction. -/
inductive SortDir
  | asc | desc
deriving DecidableEq

/-- A comparison value `a[sortField]`: a string, a number, or `null`. -/
inductive SortVal
  | s (v : String)
  | n (v : ℚ)
  | nullv
deriving DecidableEq

/-- Lift a nullable number column to a comparison value. -/
def SortVal.ofOpt : Option ℚ → SortVal
  | none => .nullv
  | some q => .n q

/-- `a[sortField]` of a route row (each column is homogeneously typed). -/
def getField (r : RouteRow) : SortField → SortVal
  | .route => .s r.route
  | .flightCount => .n r.flightCount
  | .averageTime => .n r.averageTime
  | .targetTime => .ofOpt r.targetTime
  | .difference => .ofOpt r.difference
  | .percentDiff => .ofOpt r.percentDiff

/-- `String.localeCompare` modelled as the lexicographic sign (−1/0/1); no
claim depends on which total order on strings the locale induces. -/
def strCmp (x y : String) : ℚ :=
  if x = y then 0 else if x < y then -1 else 1

/-- The comparator of the `chartData` sort: `null` on either side wins over
the direction switch (both `null` compare equal, one `null` is sent after
any non-null value); otherwise strings use `localeCompare` and numbers
subtract, each swapped for descending order. The string/number case cannot
arise (columns are homogeneous) and is given the neutral value. -/
def cmpSortVal (dir : SortDir) : SortVal → SortVal → ℚ
  | .nullv, .nullv => 0
  | .nullv, _ => 1
  | _, .nullv => -1
  | .s x, .s y => (match dir with | .asc => strCmp x y | .desc => strCmp y x)
  | .n x, .n y => (match dir with | .asc => x - y | .desc => y - x)
  | .s _, .n _ => 0
  | .n _, .s _ => 0

/-- Row comparator `(a, b) => ...` of `chartData`. -/
def rowCompare (fld : SortField) (dir : SortDir) (a b : RouteRow) : ℚ :=
  cmpSortVal dir (getField a fld) (getField b fld)

/-- `chartData`: filter, group by route, build the per-route rows, sort. -/
def chartData (fs : List Flight) (ts : List RouteTargetTime) (sel : Filters)
    (fld : SortField) (dir : SortDir) : List RouteRow :=
  jsSortBy (rowCompare fld dir)
    ((flightsByRoute (filterFlights sel fs)).map (mkRouteRow ts sel))

/-! ## Realtime projection adapter (flights subscription of
`FlightSummaryOverview`) -/

/-- Flattened snake_case wire shape of a realtime flight row change. -/
structure WireFlight where
  id : String := ""
  aircraft_id : Option String := none
  pilot_id : Option String := none
  pilot_name : Option String := none
  date : FDate := ⟨0, 1⟩
  departure_time : Option String := none
  tach_start : Option ℚ := none
  tach_end : Option ℚ := none
  hobbs_time : Option ℚ := none
  fuel_added : Option ℚ := none
  oil_added : Option ℚ := none
  passenger_count : Option ℚ := none
  route : Option String := none
  category : Option String := none
  squawks : Option String := none
  notes : Option String := none
deriving DecidableEq

/-- The snake_case → camelCase field mapping inlined in both the `onInsert`
and `onUpdate` handlers. -/
def toFlight (w : WireFlight) : Flight :=
  { id := w.id
    aircraftId := w.aircraft_id
    pilotId := w.pilot_id
    pilotName := w.pilot_name
    date := w.date
    departureTime := w.departure_time
    tachStart := w.tach_start
    tachEnd := w.tach_end
    hobbsTime := w.hobbs_time
    fuelAdded := w.fuel_added
    oilAdded := w.oil_added
    passengerCount := w.passenger_count
    route := w.route
    category := w.category
    squawks := w.squawks
    notes := w.notes }

/-- `onInsert`: append the mapped record unless a flight with the same id is
already present. -/
def flightsOnInsert (w : WireFlight) (l : List Flight) : List Flight :=
  if l.any (fun fl => fl.id == w.id) then l else l ++ [toFlight w]

/-- `onUpdate`: replace every flight with matching id by the mapped record. -/
def flightsOnUpdate (w : WireFlight) (l : List Flight) : List Flight :=
  l.map (fun fl => if fl.id == w.id then toFlight w else fl)

/-- `onDelete`: remove the flights with matching id. -/
def flightsOnDelete (w : WireFlight) (l : List Flight) : List Flight :=
  l.filter (fun fl => fl.id != w.id)

/-! ## FlightForm hobbs-time effect -/

/-- The three form fields involved in the hobbs recomputation effect.
`react-hook-form` with `valueAsNumber` yields a number or `NaN` (modelled
`none`) for these fields; they are initialised to `0` and never become
`undefined`, so the effect's `!== undefined` guard is always satisfied. -/
structure HobbsFormState where
  tachStart : Option ℚ
  tachEnd : Option ℚ
  hobbsTime : Option ℚ
deriving DecidableEq

/-- Body of the effect at `FlightForm` lines 96–105:
`setValue('hobbsTime', Math.max(0, end - start) * 1.2)`. -/
def hobbsEffectBody (s : HobbsFormState) : HobbsFormState :=
  let tachDiff := max 0 (ensureNumber s.tachEnd - ensureNumber s.tachStart)
  { s with hobbsTime := some (tachDiff * 1.2) }

/-- Events that change the watched form state: a user edit of either tach
field, or `reset(...)` loading an existing flight's values. -/
inductive FormEvent
  | setTachStart (v : Option ℚ)
  | setTachEnd (v : Option ℚ)
  | resetFrom (ts te hb : Option ℚ)
deriving DecidableEq

/-- Whether the event is a user edit of a tach field. -/
def FormEvent.isTachEdit : FormEvent → Bool
  | .setTachStart _ => true
  | .setTachEnd _ => true
  | .resetFrom _ _ _ => false

/-- The raw state update of an event, before effects run. -/
def rawApply (s : HobbsFormState) : FormEvent → HobbsFormState
  | .setTachStart v => { s with tachStart := v }
  | .setTachEnd v => { s with tachEnd := v }
  | .resetFrom ts te hb => ⟨ts, te, hb⟩

/-- React re-runs the effect after a render only when its dependency array
`[tachStart, tachEnd]` changed (`Object.is` comparison). -/
def applyEvent (s : HobbsFormState) (e : FormEvent) : HobbsFormState :=
  let next := rawApply s e
  if next.tachStart = s.tachStart ∧ next.tachEnd = s.tachEnd then next
  else hobbsEffectBody next

/-- Mounted form: default values `tachStart = tachEnd = hobbsTime = 0`, then
the effect's first run. -/
def mountForm : HobbsFormState := hobbsEffectBody ⟨some 0, some 0, some 0⟩

/-- The form state after a sequence of events on a freshly mounted form; on
submission the stored `hobbsTime` is this state's `hobbsTime` (the form has
no input bound to `hobbsTime`, only the read-only calculated display). -/
def runForm (es : List FormEvent) : HobbsFormState :=
  es.foldl applyEvent mountForm

/-! ## Auxiliary definitions and concrete evaluation inputs -/

/-- Sum of a per-entry count over a grouping dictionary. -/
def sumBy {β : Type} (cnt : β → ℕ) (l : List (String × β)) : ℕ :=
  (l.map (fun p => cnt p.2)).sum

/-- A data-entry-error flight: no hobbs time and a regressing tach pair. -/
def tachRegressionFlight : Flight :=
  { id := "f-bad"
    aircraftId := some "A"
    hobbsTime := some 0
    tachStart := some 10
    tachEnd := some 5
    fuelAdded := some 1 }

/-- Scenario flight for route "ABC" with actual time 1.8. -/
def abcFlight : Flight :=
  { id := "fa"
    route := some "ABC"
    hobbsTime := some 1.8
    date := ⟨2025, 5⟩ }

/-- Scenario target for route "ABC" with target time 1.5 and unset
narrowers. -/
def abcTarget : RouteTargetTime :=
  { id := "t1"
    route := "ABC"
    targetTime := 1.5 }

/-- Scenario flight 1 for aircraft "X" (hobbs 2.0). -/
def flightX1 : Flight := { id := "x1", aircraftId := some "X", hobbsTime := some 2 }

/-- Scenario flight 2 for aircraft "X" (hobbs 3.0). -/
def flightX2 : Flight := { id := "x2", aircraftId := some "X", hobbsTime := some 3 }

/-- Scenario flight for aircraft "Y" (tach 10 → 12, no hobbs). -/
def flightY : Flight :=
  { id := "y1"
    aircraftId := some "Y"
    tachStart := some 10
    tachEnd := some 12 }

/-! ## Helper lemmas -/

lemma mem_jsSortBy {α : Type} {c : α → α → ℚ} {l : List α} {x : α} :
    x ∈ jsSortBy c l ↔ x ∈ l :=
  List.mem_insertionSort _

lemma round1_eval (q : ℚ) (n : ℤ) (h : q * 10 = (n : ℚ)) :
    round1 q = (n : ℚ) / 10 := by
  rw [round1, h, round_intCast]

lemma sumBy_updateAssoc {β : Type} (cnt : β → ℕ) (k : String) (d : β)
    (u : β → β) (hu : ∀ v, cnt (u v) = cnt v + 1) (hd : cnt d = 0) :
    ∀ acc, sumBy cnt (updateAssoc k d u acc) = sumBy cnt acc + 1 := by
  intro acc
  induction acc with
  | nil => simp [sumBy, updateAssoc, hu, hd]
  | cons hd' tl ih =>
      obtain ⟨k', v⟩ := hd'
      by_cases hk : k' = k <;> simp [sumBy, updateAssoc, hk, hu] at ih ⊢ <;> omega

lemma sumBy_foldl {β : Type} (cnt : β → ℕ)
    (g : List (String × β) → Flight → List (String × β)) (w : Flight → ℕ)
    (hg : ∀ acc f, sumBy cnt (g acc f) = sumBy cnt acc + w f) :
    ∀ (fs : List Flight) (acc),
      sumBy cnt (fs.foldl g acc) = sumBy cnt acc + (fs.map w).sum := by
  intro fs
  induction fs with
  | nil => simp
  | cons f fs ih =>
      intro acc
      rw [List.foldl_cons, ih, hg]
      simp; omega

lemma sum_map_ite_one (fs : List Flight) (p : Flight → Bool) :
    (fs.map (fun f => if p f then 1 else 0)).sum = (fs.filter p).length := by
  induction fs with
  | nil => rfl
  | cons f fs ih =>
      by_cases h : p f <;> simp [h, ih, List.filter_cons, Nat.add_comm]

lemma monthIdx_idxToFDate (j : ℤ) : monthIdx (idxToFDate j) = j := by
  have h1 : 0 ≤ j % 12 := Int.emod_nonneg j (by norm_num)
  have h2 : j % 12 < 12 := Int.emod_lt_of_pos j (by norm_num)
  have h3 : ((j % 12 + 1).toNat : ℤ) = j % 12 + 1 := Int.toNat_of_nonneg (by omega)
  simp only [monthIdx, idxToFDate, h3]
  omega

/-! ## Claims -/

/-- C1 (code bug): the fuel-analysis view does not clamp a tach regression.
For the flight with `hobbsTime = 0`, `tachStart = 10`, `tachEnd = 5`, its
per-flight duration in `FuelAnalysisContent` is `-5` — negative, and the
fleet-wide total hours of the same view is `-5` — while the resolver of
`FlightSummaryOverview` clamps the same flight to `0` as the claim states. -/
theorem fuelAnalysis_tach_regression_negative :
    hoursFlownFuel tachRegressionFlight = -5 ∧
    (overallFuelStats [tachRegressionFlight]).1 = -5 ∧
    hoursFlownFuel tachRegressionFlight < 0 ∧
    hoursSummary tachRegressionFlight = 0 := by
  norm_num [hoursFlownFuel, overallFuelStats, hoursSummary, tachDiffOf, parseNum,
    numOr0, tachRegressionFlight]

/-- C2: whenever a flight's `hobbsTime` is a non-zero number, every view's
resolved duration equals `hobbsTime` exactly, regardless of the tach
values: the `FlightSummaryOverview` resolver, the fuel-analysis resolver,
and the route-analytics per-route average (shown on a single-flight
route group) all return it. -/
theorem resolve_eq_hobbs_of_nonzero (f : Flight) (q : ℚ)
    (hq : f.hobbsTime = some q) (h0 : q ≠ 0) :
    hoursSummary f = q ∧ hoursFlownFuel f = q ∧
    ∀ (ts : List RouteTargetTime) (sel : Filters) (r : String),
      (mkRouteRow ts sel (r, [f])).averageTime = q := by
  refine ⟨?_, ?_, ?_⟩
  · simp [hoursSummary, parseNum, hq, h0]
  · simp [hoursFlownFuel, numOr0, hq, h0]
  · intro ts sel r
    simp [mkRouteRow, hq]

/-- Witness for C2 at a concrete flight with non-zero hobbs time and a
regressing tach pair. -/
theorem resolve_eq_hobbs_of_nonzero_witness :
    hoursSummary { id := "w2", hobbsTime := some 2, tachStart := some 100, tachEnd := some 1 } = 2 ∧
    hoursFlownFuel { id := "w2", hobbsTime := some 2, tachStart := some 100, tachEnd := some 1 } = 2 ∧
    (mkRouteRow [] {} ("R", [{ id := "w2", hobbsTime := some 2, tachStart := some 100, tachEnd := some 1 }])).averageTime = 2 := by
  have h := resolve_eq_hobbs_of_nonzero
    { id := "w2", hobbsTime := some 2, tachStart := some 100, tachEnd := some 1 }
    2 rfl (by norm_num)
  exact ⟨h.1, h.2.1, h.2.2 [] {} "R"⟩

/-- C8: the realtime flights projection is idempotent against duplicate
inserts, ignores deletes of absent identities, and after
insert–update–delete of one identity no flight with that identity
remains. -/
theorem realtime_adapter_properties (l : List Flight) (w w' : WireFlight) :
    ((∃ fl ∈ l, fl.id = w.id) → flightsOnInsert w l = l) ∧
    ((∀ fl ∈ l, fl.id ≠ w.id) → flightsOnDelete w l = l) ∧
    (w'.id = w.id →
      ∀ fl ∈ flightsOnDelete w (flightsOnUpdate w' (flightsOnInsert w l)),
        fl.id ≠ w.id) := by
  refine ⟨?_, ?_, ?_⟩
  · rintro ⟨fl, hfl, hid⟩
    rw [flightsOnInsert, if_pos]
    exact List.any_eq_true.mpr ⟨fl, hfl, by simp [hid]⟩
  · intro h
    apply List.filter_eq_self.mpr
    intro a ha
    simpa [bne_iff_ne] using h a ha
  · intro _ fl hfl
    have := (List.mem_filter.mp hfl).2
    simpa [bne_iff_ne] using this

/-- Witness for C8 at concrete collections: a duplicate insert is dropped,
deleting an absent id changes nothing, and after the insert–update–delete
sequence the record is gone. -/
theorem realtime_adapter_properties_witness :
    flightsOnInsert { id := "a" } [toFlight { id := "a" }] = [toFlight { id := "a" }] ∧
    flightsOnDelete { id := "b" } [toFlight { id := "a" }] = [toFlight { id := "a" }] ∧
    toFlight { id := "a" } ∉
      flightsOnDelete { id := "a" }
        (flightsOnUpdate { id := "a", route := some "r" }
          (flightsOnInsert { id := "a" } [])) := by
  refine ⟨?_, ?_, ?_⟩
  · exact (realtime_adapter_properties [toFlight { id := "a" }]
      { id := "a" } { id := "a" }).1 ⟨toFlight { id := "a" }, by simp, rfl⟩
  · exact (realtime_adapter_properties [toFlight { id := "a" }]
      { id := "b" } { id := "b" }).2.1 (by decide)
  · intro hmem
    exact (realtime_adapter_properties [] { id := "a" }
      { id := "a", route := some "r" }).2.2 rfl (toFlight { id := "a" }) hmem rfl

/-- C9: in the route-stats comparator, for any sort field and either
direction, a row whose comparison value is `null` compares after (`1`) any
row with a non-null value — and before it (`-1`) on the swapped side — and
two `null` comparison values compare as equal (`0`). -/
theorem sort_nulls_last (fld : SortField) (dir : SortDir) (a b : RouteRow) :
    (getField a fld = SortVal.nullv → getField b fld ≠ SortVal.nullv →
      rowCompare fld dir a b = 1 ∧ rowCompare fld dir b a = -1) ∧
    (getField a fld = SortVal.nullv → getField b fld = SortVal.nullv →
      rowCompare fld dir a b = 0) := by
  constructor
  · intro ha hb
    cases hfb : getField b fld <;>
      simp [rowCompare, cmpSortVal, ha, hfb] at hb ⊢
  · intro ha hb
    simp [rowCompare, cmpSortVal, ha, hb]

/-- Witness for C9 at concrete rows sorted by the target-time column. -/
theorem sort_nulls_last_witness :
    rowCompare SortField.targetTime SortDir.desc
      ⟨"r", 0, 0, none, none, none⟩ ⟨"s", 0, 0, some 1, none, none⟩ = 1 ∧
    rowCompare SortField.targetTime SortDir.desc
      ⟨"s", 0, 0, some 1, none, none⟩ ⟨"r", 0, 0, none, none, none⟩ = -1 ∧
    rowCompare SortField.targetTime SortDir.asc
      ⟨"r", 0, 0, none, none, none⟩ ⟨"t", 0, 0, none, none, none⟩ = 0 := by
  refine ⟨?_, ?_, ?_⟩
  · exact ((sort_nulls_last SortField.targetTime SortDir.desc
      ⟨"r", 0, 0, none, none, none⟩ ⟨"s", 0, 0, some 1, none, none⟩).1
      rfl (by simp [getField, SortVal.ofOpt])).1
  · exact ((sort_nulls_last SortField.targetTime SortDir.desc
      ⟨"r", 0, 0, none, none, none⟩ ⟨"s", 0, 0, some 1, none, none⟩).1
      rfl (by simp [getField, SortVal.ofOpt])).2
  · exact (sort_nulls_last SortField.targetTime SortDir.asc
      ⟨"r", 0, 0, none, none, none⟩ ⟨"t", 0, 0, none, none, none⟩).2 rfl rfl

/-- C10 (counterexample): the hobbs recomputation effect does NOT re-fire
when an existing flight is loaded whose tach values equal the form's
current values, so a stored hobbs time of 5 survives to submission even
though the clamped tach difference times 1.2 is 0. -/
theorem hobbs_reset_preserves_stored_value :
    runForm [FormEvent.resetFrom (some 0) (some 0) (some 5)] =
      ⟨some 0, some 0, some 5⟩ ∧
    (5 : ℚ) ≠ max 0 (ensureNumber (some 0) - ensureNumber (some 0)) * 1.2 := by
  constructor
  · norm_num [runForm, mountForm, applyEvent, rawApply, hobbsEffectBody, ensureNumber]
  · norm_num [ensureNumber]

/-- C10 (amended): whenever `tachStart` or `tachEnd` changes to a different
value, `hobbsTime` is overwritten with `max 0 (tachEnd − tachStart) * 1.2`;
hence after any sequence of tach edits on a freshly mounted form (the
new-flight flow) the submitted `hobbsTime` is exactly 1.2 times the clamped
tach difference. (Loading a stored flight via reset can break this — see
the counterexample.) -/
theorem hobbs_effect_recompute :
    (∀ es : List FormEvent, (∀ e ∈ es, e.isTachEdit = true) →
      (runForm es).hobbsTime =
        some (max 0 (ensureNumber (runForm es).tachEnd -
          ensureNumber (runForm es).tachStart) * 1.2)) ∧
    (∀ (s : HobbsFormState) (v : Option ℚ), v ≠ s.tachStart →
      (applyEvent s (FormEvent.setTachStart v)).hobbsTime =
        some (max 0 (ensureNumber s.tachEnd - ensureNumber v) * 1.2)) ∧
    (∀ (s : HobbsFormState) (v : Option ℚ), v ≠ s.tachEnd →
      (applyEvent s (FormEvent.setTachEnd v)).hobbsTime =
        some (max 0 (ensureNumber v - ensureNumber s.tachStart) * 1.2)) := by
  have inv : ∀ (es : List FormEvent) (s : HobbsFormState),
      s.hobbsTime = some (max 0 (ensureNumber s.tachEnd - ensureNumber s.tachStart) * 1.2) →
      (∀ e ∈ es, e.isTachEdit = true) →
      (es.foldl applyEvent s).hobbsTime =
        some (max 0 (ensureNumber (es.foldl applyEvent s).tachEnd -
          ensureNumber (es.foldl applyEvent s).tachStart) * 1.2) := by
    intro es
    induction es with
    | nil => intro s hs _; simpa using hs
    | cons e es ih =>
        intro s hs hall
        rw [List.foldl_cons]
        refine ih _ ?_ (fun e' he' => hall e' (List.mem_cons_of_mem _ he'))
        have he := hall e (List.mem_cons_self e es)
        cases e with
        | setTachStart v =>
            by_cases hv : v = s.tachStart
            · simpa [applyEvent, rawApply, hv] using hs
            · simp [applyEvent, rawApply, hv, hobbsEffectBody]
        | setTachEnd v =>
            by_cases hv : v = s.tachEnd
            · simpa [applyEvent, rawApply, hv] using hs
            · simp [applyEvent, rawApply, hv, hobbsEffectBody]
        | resetFrom ts te hb => simp [FormEvent.isTachEdit] at he
  refine ⟨?_, ?_, ?_⟩
  · intro es hall
    exact inv es mountForm (by simp [mountForm, hobbsEffectBody]) hall
  · intro s v hv
    simp [applyEvent, rawApply, hv, hobbsEffectBody]
  · intro s v hv
    simp [applyEvent, rawApply, hv, hobbsEffectBody]

/-- Witness for C10's amended theorem: after entering tach 10 → 12 on a new
form, the stored hobbs time is 2.4 = 2 × 1.2. -/
theorem hobbs_effect_recompute_witness :
    (runForm [FormEvent.setTachStart (some 10), FormEvent.setTachEnd (some 12)]).hobbsTime =
      some 2.4 := by
  have h := hobbs_effect_recompute.1
    [FormEvent.setTachStart (some 10), FormEvent.setTachEnd (some 12)]
    (by intro e he; fin_cases he <;> rfl)
  rw [h]
  norm_num [runForm, mountForm, applyEvent, rawApply, hobbsEffectBody, ensureNumber]

/-- C5 (counterexample): in the route analytics view, a flight with an
absent route is grouped under "Unknown", not "Local". -/
theorem route_fallback_unknown_in_analytics :
    (chartData [{ id := "f5", hobbsTime := some 1 }] [] {} SortField.route
        SortDir.asc).map (·.route) = ["Unknown"] ∧
    ("Unknown" : String) ≠ "Local" := by
  constructor
  · simp [chartData, jsSortBy, filterFlights, flightsByRoute, updateAssoc,
      jsOrStr, mkRouteRow, List.insertionSort, List.orderedInsert]
  · decide

/-- C5 (amended): a flight lacking a route is grouped under the fallback
label "Local" in the `FlightSummaryOverview` route statistics and in the
passenger-summary route grouping, but under "Unknown" in the route
analytics grouping. -/
theorem route_fallback_labels (f : Flight) (hroute : f.route = none) :
    (routeStatsSummary [f]).map (·.name) = ["Local"] ∧
    (passengersByRoute [f]).map (·.name) = ["Local"] ∧
    ∀ (ts : List RouteTargetTime) (fld : SortField) (dir : SortDir),
      (chartData [f] ts {} fld dir).map (·.route) = ["Unknown"] := by
  refine ⟨?_, ?_, ?_⟩
  · simp [routeStatsSummary, byRouteSummary, byRouteSummaryStep, updateAssoc,
      jsOrStr, hroute, jsSortBy, List.insertionSort, List.orderedInsert]
  · simp [passengersByRoute, updateAssoc, jsOrStr, hroute, jsSortBy,
      List.insertionSort, List.orderedInsert]
  · intro ts fld dir
    simp [chartData, filterFlights, flightsByRoute, updateAssoc, jsOrStr,
      hroute, jsSortBy, List.insertionSort, List.orderedInsert, mkRouteRow]

/-- Witness for C5's amended theorem at a concrete route-less flight. -/
theorem route_fallback_labels_witness :
    (routeStatsSummary [{ id := "f5w" }]).map (·.name) = ["Local"] ∧
    (passengersByRoute [{ id := "f5w" }]).map (·.name) = ["Local"] ∧
    (chartData [{ id := "f5w" }] [] {} SortField.route SortDir.asc).map
      (·.route) = ["Unknown"] := by
  have h := route_fallback_labels { id := "f5w" } rfl
  exact ⟨h.1, h.2.1, h.2.2 [] SortField.route SortDir.asc⟩

/-- C3: a chart-data route row whose route has no matching target under the
current selection — or whose first matching target has target time exactly
0 — carries `null` for target time, difference and percent difference. -/
theorem reconcile_unmatched_or_zero_target_null
    (fs : List Flight) (ts : List RouteTargetTime) (sel : Filters)
    (fld : SortField) (dir : SortDir) (r : RouteRow)
    (hmem : r ∈ chartData fs ts sel fld dir)
    (h : ts.find? (targetMatches sel r.route) = none ∨
      ∃ t, ts.find? (targetMatches sel r.route) = some t ∧ t.targetTime = 0) :
    r.targetTime = none ∧ r.difference = none ∧ r.percentDiff = none := by
  rw [chartData] at hmem
  obtain ⟨p, hp, rfl⟩ := List.mem_map.mp (mem_jsSortBy.mp hmem)
  have hr : (mkRouteRow ts sel p).route = p.1 := rfl
  rw [hr] at h
  rcases h with h | ⟨t, ht, h0⟩
  · simp [mkRouteRow, h]
  · simp [mkRouteRow, ht, h0]

/-- Witness for C3: a route with no targets configured yields all-null
reconciliation fields. -/
theorem reconcile_unmatched_or_zero_target_null_witness :
    (⟨"R3", 1, 2, none, none, none⟩ : RouteRow).targetTime = none ∧
    (⟨"R3", 1, 2, none, none, none⟩ : RouteRow).difference = none ∧
    (⟨"R3", 1, 2, none, none, none⟩ : RouteRow).percentDiff = none := by
  have hmem : (⟨"R3", 1, 2, none, none, none⟩ : RouteRow) ∈
      chartData [{ id := "f3", route := some "R3", hobbsTime := some 2 }] [] {}
        SortField.route SortDir.asc := by
    simp [chartData, jsSortBy, filterFlights, flightsByRoute, updateAssoc,
      jsOrStr, mkRouteRow, List.insertionSort, List.orderedInsert]
  exact reconcile_unmatched_or_zero_target_null
    [{ id := "f3", route := some "R3", hobbsTime := some 2 }] [] {}
    SortField.route SortDir.asc _ hmem (Or.inl rfl)

/-- C4: a chart-data route row matched to a target with positive target
time carries `difference = averageTime - targetTime` and
`percentDiff = (averageTime / targetTime - 1) * 100`; concretely, target
1.5 on route "ABC" against actual average 1.8 yields difference 0.3 and
percent difference 20. -/
theorem reconcile_matched_formulas :
    (∀ (fs : List Flight) (ts : List RouteTargetTime) (sel : Filters)
        (fld : SortField) (dir : SortDir) (r : RouteRow) (t : RouteTargetTime),
      r ∈ chartData fs ts sel fld dir →
      ts.find? (targetMatches sel r.route) = some t →
      0 < t.targetTime →
      r.targetTime = some t.targetTime ∧
      r.difference = some (r.averageTime - t.targetTime) ∧
      r.percentDiff = some ((r.averageTime / t.targetTime - 1) * 100)) ∧
    chartData [abcFlight] [abcTarget] {} SortField.route SortDir.asc =
      [⟨"ABC", 1, 1.8, some 1.5, some 0.3, some 20⟩] := by
  constructor
  · intro fs ts sel fld dir r t hmem hfind hpos
    rw [chartData] at hmem
    obtain ⟨p, hp, rfl⟩ := List.mem_map.mp (mem_jsSortBy.mp hmem)
    have hr : (mkRouteRow ts sel p).route = p.1 := rfl
    rw [hr] at hfind
    refine ⟨?_, ?_, ?_⟩ <;> simp [mkRouteRow, hfind, hpos.ne']
  · have habc : ("ABC" : String) = "" ↔ False := by simp
    norm_num [chartData, jsSortBy, filterFlights, flightsByRoute, updateAssoc,
      jsOrStr, mkRouteRow, targetMatches, List.insertionSort,
      List.orderedInsert, List.find?, abcFlight, abcTarget, habc]

/-- Witness for C4 at the scenario inputs: the "ABC" row satisfies the
variance formulas against its matched 1.5-hour target. -/
theorem reconcile_matched_formulas_witness :
    (⟨"ABC", 1, 1.8, some 1.5, some 0.3, some 20⟩ : RouteRow).targetTime =
      some abcTarget.targetTime ∧
    (⟨"ABC", 1, 1.8, some 1.5, some 0.3, some 20⟩ : RouteRow).difference =
      some ((⟨"ABC", 1, 1.8, some 1.5, some 0.3, some 20⟩ : RouteRow).averageTime -
        abcTarget.targetTime) ∧
    (⟨"ABC", 1, 1.8, some 1.5, some 0.3, some 20⟩ : RouteRow).percentDiff =
      some (((⟨"ABC", 1, 1.8, some 1.5, some 0.3, some 20⟩ : RouteRow).averageTime /
        abcTarget.targetTime - 1) * 100) := by
  have hmem : (⟨"ABC", 1, 1.8, some 1.5, some 0.3, some 20⟩ : RouteRow) ∈
      chartData [abcFlight] [abcTarget] {} SortField.route SortDir.asc := by
    rw [reconcile_matched_formulas.2]
    exact List.mem_singleton.mpr rfl
  have hfind : List.find? (targetMatches {}
      (⟨"ABC", 1, 1.8, some 1.5, some 0.3, some 20⟩ : RouteRow).route)
      [abcTarget] = some abcTarget := by
    simp [List.find?, targetMatches, abcTarget]
  exact reconcile_matched_formulas.1 [abcFlight] [abcTarget] {}
    SortField.route SortDir.asc _ abcTarget hmem hfind
    (by norm_num [abcTarget])

lemma sum_map_jsSortBy {α : Type} (c : α → α → ℚ) (l : List α) (g : α → ℕ) :
    ((jsSortBy c l).map g).sum = (l.map g).sum :=
  ((List.perm_insertionSort _ l).map g).sum_eq

lemma sumBy_flightsByAircraftStep (acc : List (String × List Flight)) (f : Flight) :
    sumBy (fun l => l.length) (flightsByAircraftStep acc f) =
      sumBy (fun l => l.length) acc + (if jsTruthy f.aircraftId then 1 else 0) := by
  cases ha : f.aircraftId with
  | none => simp [flightsByAircraftStep, ha, jsTruthy]
  | some k =>
      by_cases hk : k = ""
      · simp [flightsByAircraftStep, ha, hk, jsTruthy]
      · rw [flightsByAircraftStep]
        simp only [ha, if_neg hk]
        rw [sumBy_updateAssoc (fun l => l.length) k [] _ (fun v => by simp) rfl]
        simp [jsTruthy, hk]

/-- C6: each of the three `FlightSummaryOverview` groupings is a partition —
group flight counts sum to the number of grouped flights, where aircraft
grouping first drops flights without an `aircraftId` while pilot and route
groupings keep every flight via fallback labels — and on the concrete
scenario (two hobbs flights on "X", one tach-only flight on "Y") the
aircraft summary shows X: 2 flights, 5.0 total, 2.5 average and Y: 1
flight, 2.0 total, 2.0 average. -/
theorem grouping_partition_and_scenario :
    (∀ (fs : List Flight) (acs : List Aircraft),
      ((aircraftStats (flightsByAircraft fs) acs).map (·.flightCount)).sum =
        (fs.filter (fun f => jsTruthy f.aircraftId)).length) ∧
    (∀ fs : List Flight, ((pilotStats fs).map (·.flights)).sum = fs.length) ∧
    (∀ fs : List Flight, ((routeStatsSummary fs).map (·.flights)).sum = fs.length) ∧
    (aircraftStats (flightsByAircraft [flightX1, flightX2, flightY]) []).map
        (fun s => (s.id, s.flightCount, s.totalHours, s.averageFlightTime)) =
      [("X", 2, 5, 2.5), ("Y", 1, 2, 2)] := by
  refine ⟨?_, ?_, ?_, ?_⟩
  · intro fs acs
    have hmap : (aircraftStats (flightsByAircraft fs) acs).map (·.flightCount) =
        (flightsByAircraft fs).map (fun p => p.2.length) := by
      rw [aircraftStats, List.map_map]; rfl
    rw [hmap]
    show sumBy (fun l => l.length) (flightsByAircraft fs) = _
    rw [flightsByAircraft,
      sumBy_foldl (fun l => l.length) flightsByAircraftStep _
        sumBy_flightsByAircraftStep fs []]
    simpa [sumBy] using sum_map_ite_one fs _
  · intro fs
    rw [pilotStats, sum_map_jsSortBy, List.map_map]
    show sumBy (fun cv : ℕ × ℚ => cv.1) (byPilot fs) = _
    rw [byPilot,
      sumBy_foldl (fun cv : ℕ × ℚ => cv.1) byPilotStep (fun _ => 1)
        (fun acc f => by
          rw [byPilotStep,
            sumBy_updateAssoc (fun cv : ℕ × ℚ => cv.1) (jsOrStr f.pilotName "Unknown")
              (0, 0) _ (fun v => rfl) rfl])
        fs []]
    simp [sumBy, List.map_const', List.sum_replicate, smul_eq_mul]
  · intro fs
    rw [routeStatsSummary, sum_map_jsSortBy, List.map_map]
    show sumBy (fun cv : ℕ × ℚ × ℚ => cv.1) (byRouteSummary fs) = _
    rw [byRouteSummary,
      sumBy_foldl (fun cv : ℕ × ℚ × ℚ => cv.1) byRouteSummaryStep (fun _ => 1)
        (fun acc f => by
          rw [byRouteSummaryStep,
            sumBy_updateAssoc (fun cv : ℕ × ℚ × ℚ => cv.1) (jsOrStr f.route "Local")
              (0, 0, 0) _ (fun v => rfl) rfl])
        fs []]
    simp [sumBy, List.map_const', List.sum_replicate, smul_eq_mul]
  · have hx : ("X" : String) = "" ↔ False := by simp
    have hy : ("Y" : String) = "" ↔ False := by simp
    have hxy : ("X" : String) = "Y" ↔ False := by simp
    norm_num [aircraftStats, flightsByAircraft, flightsByAircraftStep,
      updateAssoc, hoursSummary, tachDiffOf, parseNum, jsOrStr, round1,
      flightX1, flightX2, flightY, hx, hy, hxy]

/-- C7: for any current date and flight collection, the monthly trend has
exactly 12 buckets, their months are the trailing window ending at the
current month in chronological order, and a month with no matching flights
is a zero-valued bucket rather than omitted. -/
theorem monthly_buckets_twelve_chronological (now : FDate) (rel : List Flight) :
    (monthlyPassengers now rel).length = 12 ∧
    (monthlyPassengers now rel).map (fun b => monthIdx b.name) =
      (List.range 12).map (fun i : ℕ => monthIdx now - 11 + (i : ℤ)) ∧
    ∀ b ∈ monthlyPassengers now rel,
      rel.filter (fun f => f.date == b.name) = [] →
      b.passengers = 0 ∧ b.flights = 0 ∧ b.average = 0 := by
  refine ⟨?_, ?_, ?_⟩
  · rw [monthlyPassengers, List.length_map, List.length_map, List.length_range]
  · simp [monthlyPassengers, List.map_map, Function.comp, monthBucketOf,
      monthIdx_idxToFDate]
  · intro b hb hfil
    rw [monthlyPassengers] at hb
    obtain ⟨m, hm, rfl⟩ := List.mem_map.mp hb
    have hfil' : rel.filter (fun f => f.date == m) = [] := hfil
    refine ⟨?_, ?_, ?_⟩ <;> simp [monthBucketOf, hfil']

/-- Witness for C7 at December of year 0 with no flights: 12 buckets and the
earliest bucket is zero-valued. -/
theorem monthly_buckets_twelve_chronological_witness :
    (monthlyPassengers ⟨0, 12⟩ []).length = 12 ∧
    (monthBucketOf [] (idxToFDate (monthIdx ⟨0, 12⟩ - 11 + ((0 : ℕ) : ℤ)))).passengers = 0 ∧
    (monthBucketOf [] (idxToFDate (monthIdx ⟨0, 12⟩ - 11 + ((0 : ℕ) : ℤ)))).flights = 0 ∧
    (monthBucketOf [] (idxToFDate (monthIdx ⟨0, 12⟩ - 11 + ((0 : ℕ) : ℤ)))).average = 0 := by
  have h := monthly_buckets_twelve_chronological ⟨0, 12⟩ []
  have hmem : monthBucketOf [] (idxToFDate (monthIdx ⟨0, 12⟩ - 11 + ((0 : ℕ) : ℤ))) ∈
      monthlyPassengers ⟨0, 12⟩ [] := by
    rw [monthlyPassengers]
    exact List.mem_map_of_mem _ (List.mem_map_of_mem _ (by decide))
  have h3 := h.2.2 _ hmem rfl
  exact ⟨h.1, h3.1, h3.2.1, h3.2.2⟩

end PilotPortal
